import Mathlib

/-!
Verification of the acoustic simulation bridge
(`ippai/simulate/models/acoustic_models/k_wave_adapter.py`) and of
`simpa/utils/calculate.py`, against the repository specification.

The bridge is embedded shallowly: the Python interpreter state relevant to
`simulate` (filesystem, current working directory, the mutable settings
object, the log, and an event trace) is made explicit, and `simulate` is
translated statement by statement.  Machine-level exceptions are modelled
by an explicit error type; every step that can raise returns through it.
-/

/-- Python exception classes that can arise in the bridge.  `keyError`,
`valueError`, `nameError`, `fileNotFoundError` and `typeError` model the
built-in exception types raised by the code; `engineError` models an
exception escaping `subprocess.run` (for example the binary being absent).
`missingUpstreamDataError` is Modelled from the spec §7 error taxonomy: the
specification postulates a dedicated error class for absent upstream data;
no such class exists anywhere in the source. -/
inductive PyErr : Type where
  | keyError (k : String)
  | valueError
  | nameError (n : String)
  | fileNotFoundError (p : String)
  | typeError
  | engineError
  | missingUpstreamDataError (k : String)
deriving DecidableEq, Repr

/-- A value stored in a loaded data container: either a 2D numeric array
(indexed functions over `Fin`, entries as rationals standing for the exact
numeric payload) or a sub-2D value (`scalar`), which is what `np.rot90`
rejects with `ValueError` (it requires `ndim >= 2`). -/
inductive HVal : Type where
  | scalar (q : ℚ)
  | arr (m n : Nat) (A : Fin m → Fin n → ℚ)

/-- One application of `np.rot90(A, 1)` (counterclockwise):
`rot90(A)[i][j] = A[j][n-1-i]`. -/
def rotCCW {α : Type} {m n : Nat} (A : Fin m → Fin n → α) : Fin n → Fin m → α :=
  fun i j => A j i.rev

/-- Three sequential 90° rotations, i.e. `np.rot90(A, 3)` — the fixed 270°
geometry transform the adapter applies to every field (lines 26–31). -/
def rot270 {α : Type} {m n : Nat} (A : Fin m → Fin n → α) : Fin n → Fin m → α :=
  rotCCW (rotCCW (rotCCW A))

/-- `np.rot90(v, 3)` on a stored value: rotates a 2D array, raises
`ValueError` on a sub-2D value. -/
def rot90x3 (v : HVal) : Except PyErr HVal :=
  match v with
  | .scalar _ => .error .valueError
  | .arr m n A => .ok (.arr n m (rot270 A))

/-- A loaded container / Python dictionary: association list keyed by the
entry name; updates shadow (first match wins on lookup). -/
def PyDict : Type := List (String × HVal)

/-- First-match lookup in a dictionary. -/
def dictGet? (d : PyDict) (k : String) : Option HVal :=
  match d with
  | [] => none
  | (k', v) :: t => if k = k' then some v else dictGet? t k

/-- `d[k]` read access: raises `KeyError` when the key is absent, exactly
like a Python mapping (the adapter itself relies on this at line 34, where
it catches `KeyError` from the same container). -/
def pyDictGet (d : PyDict) (k : String) : Except PyErr HVal :=
  match dictGet? d k with
  | some v => .ok v
  | none => .error (.keyError k)

/-- `d[k] = v` write access. -/
def dictSet (d : PyDict) (k : String) (v : HVal) : PyDict :=
  (k, v) :: d

/-- Contents of a file on disk: a saved matrix container (`sio.savemat`),
the settings JSON snapshot, or any other file. -/
inductive FileData : Type where
  | mat (d : PyDict)
  | json
  | other

/-- The filesystem: association list from path to contents; writes shadow.
Paths are plain keys: the modelled scenarios use absolute paths, so file
resolution does not depend on the process working directory (the bridge
creates its artifacts before the `chdir` and removes them after it, which
for relative paths would resolve differently). -/
def FS : Type := List (String × FileData)

def fsGet (fs : FS) (p : String) : Option FileData :=
  match fs with
  | [] => none
  | (q, d) :: t => if p = q then some d else fsGet t p

def fsSet (fs : FS) (p : String) (d : FileData) : FS :=
  (p, d) :: fs

def fsRemove (fs : FS) (p : String) : FS :=
  match fs with
  | [] => []
  | (q, d) :: t => if q = p then fsRemove t p else (q, d) :: fsRemove t p

/-- Observable events of one bridge invocation, in order: file writes by
the bridge (matrix container / settings JSON), the engine command line
passed to `subprocess.run`, and file deletions. -/
inductive Ev : Type where
  | wroteMat (p : String)
  | wroteSettings (p : String)
  | invoked (cmd : List String)
  | removed (p : String)
deriving DecidableEq, Repr

/-- The settings object (`SimulationSettings`).  The spec's design note §9
describes it as a mapping with required and optional keys; it is embedded
as a record whose optional keys are `Option` fields, so that key presence
(`Tags.PERFORM_UPSAMPLING in settings`, `Tags.SETTINGS_JSON_PATH not in
settings`) is `Option` matching.  `dt_acoustic_sim` is the key the bridge
adds at line 61. -/
structure SimulationSettings : Type where
  ippai_output_path : String
  perform_upsampling : Option Bool
  wavelength : Nat
  settings_json_path : Option String
  acoustic_model_binary_path : String
  acoustic_model_script_location : String
  acoustic_model_script : String
  simulation_path : String
  dt_acoustic_sim : Option ℚ := none
deriving DecidableEq, Repr

/-- The interpreter state `simulate` can observe and mutate: the
filesystem, the process working directory, the (shared, mutable) settings
object, printed log lines, and the event trace. -/
structure PyState : Type where
  fs : FS
  cwd : String
  settings : SimulationSettings
  log : List String
  trace : List Ev

/-- Outcome of running a fragment of the bridge: normal value or raised
exception, each together with the interpreter state at that point
(exceptions do not roll state back). -/
inductive Res (α : Type) : Type where
  | ok (a : α) (st : PyState)
  | exn (e : PyErr) (st : PyState)

def stateOf {α : Type} : Res α → PyState
  | .ok _ st => st
  | .exn _ st => st

def errOf {α : Type} : Res α → Option PyErr
  | .ok _ _ => none
  | .exn e _ => some e

/-- Modelled from the spec: the `Tags` module (`ippai.simulate`) is not
under `src/`; its members are opaque distinct key names (§6 settings key
contract, §4 field names).  Their concrete spellings are irrelevant to
every claim; only distinctness is used. -/
def Tags.PROPERTY_SPEED_OF_SOUND : String := "speed_of_sound"

/-- Modelled from the spec: see `Tags.PROPERTY_SPEED_OF_SOUND`. -/
def Tags.PROPERTY_DENSITY : String := "density"

/-- Modelled from the spec: see `Tags.PROPERTY_SPEED_OF_SOUND`. -/
def Tags.PROPERTY_ALPHA_COEFF : String := "alpha_coeff"

/-- Modelled from the spec: see `Tags.PROPERTY_SPEED_OF_SOUND`. -/
def Tags.PROPERTY_SENSOR_MASK : String := "sensor_mask"

/-- Modelled from the spec: see `Tags.PROPERTY_SPEED_OF_SOUND`. -/
def Tags.PROPERTY_DIRECTIVITY_ANGLE : String := "directivity_angle"

/-- Modelled from the spec: see `Tags.PROPERTY_SPEED_OF_SOUND`. -/
def Tags.UPSAMPLED_DATA : String := "upsampled_data"

/-- Modelled from the spec: see `Tags.PROPERTY_SPEED_OF_SOUND`. -/
def Tags.ORIGINAL_DATA : String := "original_data"

/-- Modelled from the spec: `SaveFilePaths.SIMULATION_PROPERTIES` (module
`ippai.simulate`, not under `src/`) is a store path template instantiated
with a stage tag and a wavelength (§2: datasets are grouped by simulation
stage and wavelength). -/
def SaveFilePaths.simulationProperties (tag : String) (wavelength : Nat) : String :=
  "simulation_properties/" ++ tag ++ "/" ++ toString wavelength

/-- Modelled from the spec: `load_hdf5` (`ippai.io_handling.io_hdf5`, not
under `src/`) reads the named dataset of a hierarchical store file (§2),
returning its entries, or failing when the file or dataset is absent.  A
store is the function from (file path, dataset path) to that outcome. -/
def HDF5Store : Type := String → String → Except PyErr PyDict

/-- Models `os.path.splitext(p)[0]` (POSIX): the path without its final
extension; a dot only starts an extension if it comes after the last
separator and is preceded, within the basename, by a non-dot character. -/
def splitextBase (p : String) : String :=
  let cs := p.data
  let sep : Int :=
    match cs.reverse.findIdx? (· == '/') with
    | some i => ((cs.length - 1 - i : Nat) : Int)
    | none => -1
  let dot : Int :=
    match cs.reverse.findIdx? (· == '.') with
    | some i => ((cs.length - 1 - i : Nat) : Int)
    | none => -1
  if dot > sep then
    if (List.range cs.length).any
        (fun k => decide (sep < (k : Int)) && decide ((k : Int) < dot) &&
          (cs.getD k '.' != '.'))
    then String.mk (cs.take dot.toNat)
    else p
  else p

/-- `float(x)` on a loaded container entry: a scalar or a 1×1 array
converts; any larger array raises `TypeError`. -/
def pyFloat (v : HVal) : Except PyErr ℚ :=
  match v with
  | .scalar q => .ok q
  | .arr 1 1 A => .ok (A 0 0)
  | .arr _ _ _ => .error .typeError

/-- `sio.loadmat(p)`: raises `FileNotFoundError` when the path is absent,
fails when the file is not a matrix container, otherwise yields the
container's entries. -/
def fsLoadmat (fs : FS) (p : String) : Except PyErr PyDict :=
  match fsGet fs p with
  | some (.mat d) => .ok d
  | some _ => .error .valueError
  | none => .error (.fileNotFoundError p)

/-- `os.remove(p)`: deletes the file, raising `FileNotFoundError` when it
does not exist; records a `removed` event. -/
def osRemove (st : PyState) (p : String) : Except PyErr PyState :=
  match fsGet st.fs p with
  | some _ => .ok { st with fs := fsRemove st.fs p, trace := st.trace ++ [.removed p] }
  | none => .error (.fileNotFoundError p)

/-- Modelled from the spec: the external engine (§4.5, §6) is opaque; one
invocation either raises out of `subprocess.run`, or runs to completion
and — when it honours the two-artifact output convention — writes
`<data_container_path>.mat` and `<data_container_path>dt.mat`.  A non-zero
exit status does not raise (`subprocess.run` without `check`); it shows up
as missing output artifacts. -/
structure EngineBehavior : Type where
  raises : Bool
  writesOutputs : Bool
  outMat : PyDict
  outDt : PyDict

/-- Lines 15–24 of the adapter: choose the acoustic-property dataset.  The
three-way branch is kept exactly as written: key present and true →
upsampled dataset; present and false → original; absent → original. -/
def acousticLoad (store : HDF5Store) (s : SimulationSettings) : Except PyErr PyDict :=
  match s.perform_upsampling with
  | some b =>
    if b then
      store s.ippai_output_path
        (SaveFilePaths.simulationProperties Tags.UPSAMPLED_DATA s.wavelength)
    else
      store s.ippai_output_path
        (SaveFilePaths.simulationProperties Tags.ORIGINAL_DATA s.wavelength)
  | none =>
    store s.ippai_output_path
      (SaveFilePaths.simulationProperties Tags.ORIGINAL_DATA s.wavelength)

/-- Lines 30–35 of the adapter: the `try`/`except` around the directivity
angle.  The lookup can only raise `KeyError` and the rotation can only
raise `ValueError`, which are exactly the two caught classes, so the block
is total: it returns the (possibly extended) dictionary and whether the
diagnostic `print` fired. -/
def addDirectivity (dd : PyDict) (tmp : PyDict) : PyDict × Bool :=
  match pyDictGet tmp Tags.PROPERTY_DIRECTIVITY_ANGLE with
  | .ok v =>
    match rot90x3 v with
    | .ok r => (dictSet dd Tags.PROPERTY_DIRECTIVITY_ANGLE r, false)
    | .error _ => (dd, true)
  | .error _ => (dd, true)

/-- Lines 47–54 of the adapter: the engine command line.  Note the script
expression has no space after either semicolon. -/
def buildCmd (s : SimulationSettings) (tmp_json_filename optical_path : String) : List String :=
  [s.acoustic_model_binary_path, "-nodisplay", "-nosplash", "-r",
    "addpath('" ++ s.acoustic_model_script_location ++ "');" ++
      s.acoustic_model_script ++ "('" ++ tmp_json_filename ++
      "', '" ++ optical_path ++ "');exit;"]

/-- Modelled from the spec: the §6 invocation command line, transcribed
from the specification's words (for comparison with `buildCmd`): the
script expression there reads
`addpath('<script_dir>'); <entry_script>('<settings_json_path>', '<data_container_path>'); exit;`
with a space after each semicolon. -/
def specCmd (s : SimulationSettings) (tmp_json_filename optical_path : String) : List String :=
  [s.acoustic_model_binary_path, "-nodisplay", "-nosplash", "-r",
    "addpath('" ++ s.acoustic_model_script_location ++ "'); " ++
      s.acoustic_model_script ++ "('" ++ tmp_json_filename ++
      "', '" ++ optical_path ++ "'); exit;"]

/-- The bridge, `k_wave_adapter.simulate(settings, optical_path)`,
translated statement by statement (line numbers refer to the adapter).
The settings object is the `settings` field of the interpreter state; the
store and the engine stand for the external collaborators.  Note that the
source's final statement, `return raw_time_series_data` (line 70), names a
variable that is never defined anywhere in the module, so the success path
terminates by raising `NameError`; the `sensor_data` read at line 60 is
never returned. -/
def simulate (store : HDF5Store) (engine : EngineBehavior) (optical_path : String)
    (st : PyState) : Res HVal :=
  let s := st.settings
  -- line 13: data_dict = load_hdf5(settings[Tags.IPPAI_OUTPUT_PATH], optical_path)
  match store s.ippai_output_path optical_path with
  | .error e => .exn e st
  | .ok data_dict =>
  -- lines 15-24: select and load the acoustic-property dataset
  match acousticLoad store s with
  | .error e => .exn e st
  | .ok tmp_ac_data =>
  -- lines 26-29: required fields, each `np.rot90(tmp_ac_data[k], 3)`
  match pyDictGet tmp_ac_data Tags.PROPERTY_SPEED_OF_SOUND with
  | .error e => .exn e st
  | .ok v1 =>
  match rot90x3 v1 with
  | .error e => .exn e st
  | .ok r1 =>
  match pyDictGet tmp_ac_data Tags.PROPERTY_DENSITY with
  | .error e => .exn e st
  | .ok v2 =>
  match rot90x3 v2 with
  | .error e => .exn e st
  | .ok r2 =>
  match pyDictGet tmp_ac_data Tags.PROPERTY_ALPHA_COEFF with
  | .error e => .exn e st
  | .ok v3 =>
  match rot90x3 v3 with
  | .error e => .exn e st
  | .ok r3 =>
  match pyDictGet tmp_ac_data Tags.PROPERTY_SENSOR_MASK with
  | .error e => .exn e st
  | .ok v4 =>
  match rot90x3 v4 with
  | .error e => .exn e st
  | .ok r4 =>
  let data_dict :=
    dictSet (dictSet (dictSet (dictSet data_dict
      Tags.PROPERTY_SPEED_OF_SOUND r1)
      Tags.PROPERTY_DENSITY r2)
      Tags.PROPERTY_ALPHA_COEFF r3)
      Tags.PROPERTY_SENSOR_MASK r4
  -- lines 30-35: optional directivity angle, diagnostic on absence
  let pr := addDirectivity data_dict tmp_ac_data
  let data_dict := pr.1
  let st := if pr.2 then { st with log := st.log ++ ["No directivity_angle specified"] } else st
  -- line 37: optical_path = settings[Tags.IPPAI_OUTPUT_PATH] + ".mat"
  -- (the parameter of the same name is shadowed from here on)
  let optical_path := s.ippai_output_path ++ ".mat"
  -- line 38: sio.savemat(optical_path, data_dict)
  let st := { st with fs := fsSet st.fs optical_path (FileData.mat data_dict),
                      trace := st.trace ++ [Ev.wroteMat optical_path] }
  -- lines 40-41: json_path, ext = os.path.splitext(...); tmp_json_filename = json_path + ".json"
  let tmp_json_filename := splitextBase s.ippai_output_path ++ ".json"
  -- lines 42-45: write the settings JSON only when Tags.SETTINGS_JSON_PATH is absent
  let st :=
    match s.settings_json_path with
    | none => { st with fs := fsSet st.fs tmp_json_filename FileData.json,
                        trace := st.trace ++ [Ev.wroteSettings tmp_json_filename] }
    | some _ => st
  -- lines 47-54: build the command line
  let cmd := buildCmd s tmp_json_filename optical_path
  -- line 55: cur_dir = os.getcwd()
  let cur_dir := st.cwd
  -- line 56: os.chdir(settings[Tags.SIMULATION_PATH])
  let st := { st with cwd := s.simulation_path }
  -- line 58: subprocess.run(cmd)
  let st := { st with trace := st.trace ++ [Ev.invoked cmd] }
  if engine.raises then .exn .engineError st else
  let st :=
    if engine.writesOutputs then
      { st with fs := fsSet (fsSet st.fs (optical_path ++ ".mat") (FileData.mat engine.outMat))
                            (optical_path ++ "dt.mat") (FileData.mat engine.outDt) }
    else st
  -- line 60: sensor_data = sio.loadmat(optical_path + ".mat")["sensor_data_2D"]
  match fsLoadmat st.fs (optical_path ++ ".mat") with
  | .error e => .exn e st
  | .ok out1 =>
  match pyDictGet out1 "sensor_data_2D" with
  | .error e => .exn e st
  | .ok _sensor_data =>
  -- line 61: settings["dt_acoustic_sim"] = float(sio.loadmat(optical_path + "dt.mat", ...)["time_step"])
  match fsLoadmat st.fs (optical_path ++ "dt.mat") with
  | .error e => .exn e st
  | .ok outdt =>
  match pyDictGet outdt "time_step" with
  | .error e => .exn e st
  | .ok tsv =>
  match pyFloat tsv with
  | .error e => .exn e st
  | .ok q =>
  let st := { st with settings := { st.settings with dt_acoustic_sim := some q } }
  -- lines 63-65: remove the data container and the two engine outputs
  match osRemove st optical_path with
  | .error e => .exn e st
  | .ok st =>
  match osRemove st (optical_path ++ ".mat") with
  | .error e => .exn e st
  | .ok st =>
  match osRemove st (optical_path ++ "dt.mat") with
  | .error e => .exn e st
  | .ok st =>
  -- lines 66-67: remove the settings JSON only when the bridge wrote it
  match (match st.settings.settings_json_path with
         | none => osRemove st tmp_json_filename
         | some _ => .ok st) with
  | .error e => .exn e st
  | .ok st =>
  -- line 68: os.chdir(cur_dir)
  let st := { st with cwd := cur_dir }
  -- line 70: `return raw_time_series_data` — the name is undefined, so the
  -- statement raises NameError instead of returning `sensor_data`
  .exn (.nameError "raw_time_series_data") st

/-- `simpa/utils/calculate.py`: an absorption spectrum; only its name is
consulted by `calculate_oxygenation`. -/
structure Spectrum : Type where
  spectrum_name : String
deriving DecidableEq, Repr

/-- A molecule as consumed by `calculate_oxygenation`: its spectrum and
its volume fraction (rationals standing for the numeric payload). -/
structure Molecule : Type where
  spectrum : Spectrum
  volume_fraction : ℚ
deriving DecidableEq, Repr

/-- One iteration of the loop in `calculate_oxygenation` (lines 17–21):
the two `if` statements update the running `(hb, hbO2)` pair, each holding
the volume fraction of the most recent matching molecule. -/
def hbStep (acc : Option ℚ × Option ℚ) (molecule : Molecule) : Option ℚ × Option ℚ :=
  let acc :=
    if molecule.spectrum.spectrum_name = "Deoxyhemoglobin"
    then (some molecule.volume_fraction, acc.2) else acc
  if molecule.spectrum.spectrum_name = "Oxyhemoglobin"
  then (acc.1, some molecule.volume_fraction) else acc

/-- The `(hb, hbO2)` pair after the whole loop. -/
def hbPair (molecule_list : List Molecule) : Option ℚ × Option ℚ :=
  molecule_list.foldl hbStep (none, none)

/-- `calculate_oxygenation(molecule_list)` (`simpa/utils/calculate.py`,
lines 10–34): `None` when no hemoglobin molecule was seen, else default
the missing species to 0, refuse sums below `1e-10`, else divide. -/
def calculate_oxygenation (molecule_list : List Molecule) : Option ℚ :=
  match hbPair molecule_list with
  | (none, none) => none
  | (hbO, hbO2O) =>
    let hb := hbO.getD 0
    let hbO2 := hbO2O.getD 0
    if hb + hbO2 < 1 / 10 ^ 10 then none
    else some (hbO2 / (hb + hbO2))

/-- A 4×4 constant field, used as concrete test input. -/
def constField (c : ℚ) : HVal := HVal.arr 4 4 (fun _ _ => c)

/-- Concrete settings for the §8 end-to-end example: original-resolution
data (`PERFORM_UPSAMPLING = false`), no pre-existing settings file. -/
def exampleSettings : SimulationSettings :=
  { ippai_output_path := "/tmp/out.hdf5"
    perform_upsampling := some false
    wavelength := 800
    settings_json_path := none
    acoustic_model_binary_path := "matlab"
    acoustic_model_script_location := "/scripts"
    acoustic_model_script := "simulate_2D"
    simulation_path := "/simdir" }

/-- The same settings but carrying a pre-existing (externally owned)
settings-file path. -/
def exampleSettingsExt : SimulationSettings :=
  { exampleSettings with settings_json_path := some "/etc/external_settings.json" }

/-- Acoustic property fields for the concrete store: the four required
fields, no directivity angle. -/
def exampleProps : PyDict :=
  [(Tags.PROPERTY_SPEED_OF_SOUND, constField 1500),
   (Tags.PROPERTY_DENSITY, constField 1000),
   (Tags.PROPERTY_ALPHA_COEFF, constField 1),
   (Tags.PROPERTY_SENSOR_MASK, constField 0)]

/-- The same fields with the speed of sound missing (for the
required-field-absent scenario). -/
def examplePropsNoSos : PyDict :=
  [(Tags.PROPERTY_DENSITY, constField 1000),
   (Tags.PROPERTY_ALPHA_COEFF, constField 1),
   (Tags.PROPERTY_SENSOR_MASK, constField 0)]

/-- A concrete store holding the optical output dataset and the
original-resolution acoustic properties for wavelength 800. -/
def exampleStore : HDF5Store := fun path sub =>
  if path = "/tmp/out.hdf5" then
    if sub = "optical_forward_model_output/800" then .ok []
    else if sub = SaveFilePaths.simulationProperties Tags.ORIGINAL_DATA 800 then .ok exampleProps
    else .error (.keyError sub)
  else .error (.fileNotFoundError path)

/-- The same store with the speed-of-sound field missing from the
acoustic dataset. -/
def exampleStoreNoSos : HDF5Store := fun path sub =>
  if path = "/tmp/out.hdf5" then
    if sub = "optical_forward_model_output/800" then .ok []
    else if sub = SaveFilePaths.simulationProperties Tags.ORIGINAL_DATA 800 then .ok examplePropsNoSos
    else .error (.keyError sub)
  else .error (.fileNotFoundError path)

/-- The §8 stub engine: runs, honours the output convention, returns a
4×4 zero sensor matrix and the scalar timestep 1e-7. -/
def exampleEngine : EngineBehavior :=
  { raises := false
    writesOutputs := true
    outMat := [("sensor_data_2D", constField 0)]
    outDt := [("time_step", HVal.scalar (1 / 10000000))] }

/-- An engine invocation that completes (exit observed, no exception) but
leaves no output artifacts — e.g. a non-zero exit status. -/
def engineNoOutput : EngineBehavior :=
  { raises := false, writesOutputs := false, outMat := [], outDt := [] }

/-- An engine invocation that raises out of `subprocess.run` (e.g. the
binary path does not exist). -/
def engineRaising : EngineBehavior :=
  { raises := true, writesOutputs := false, outMat := [], outDt := [] }

/-- The initial interpreter state for the concrete scenarios: empty
filesystem, working directory `/home`. -/
def exampleState : PyState :=
  { fs := [], cwd := "/home", settings := exampleSettings, log := [], trace := [] }

/-- The initial state whose settings carry the externally owned
settings-file path, with one unrelated file on disk. -/
def exampleStateExt : PyState :=
  { fs := [("/etc/external_settings.json", FileData.other)], cwd := "/home",
    settings := exampleSettingsExt, log := [], trace := [] }

theorem fsGet_fsSet (fs : FS) (p : String) (d : FileData) (q : String) :
    fsGet (fsSet fs p d) q = if q = p then some d else fsGet fs q := rfl

theorem fsGet_fsRemove (fs : FS) (p q : String) :
    fsGet (fsRemove fs p) q = if q = p then none else fsGet fs q := by
  induction fs with
  | nil => simp [fsRemove, fsGet]
  | cons e t ih =>
    obtain ⟨r, d⟩ := e
    simp only [fsRemove, fsGet]
    split_ifs with h1 h2 h3 <;> simp_all [fsGet]
    all_goals simp_all [eq_comm]

/-- Symbolic execution of a complete run: whenever both store loads
succeed, all four required fields are present 2D arrays, the engine
invocation completes and honours the output convention, and the derived
artifact paths are pairwise distinct, `simulate` runs to its final
statement and raises `NameError` there, having restored the working
directory, recorded the timestep in the settings, cleaned up every
artifact and touched no other path. -/
theorem simulate_success
    (store : HDF5Store) (engine : EngineBehavior) (p0 : String) (st : PyState)
    {dd props : PyDict} {v1 r1 v2 r2 v3 r3 v4 r4 : HVal} {ddDir : PyDict} {b : Bool}
    {sd tv : HVal} {q : ℚ}
    (H1 : store st.settings.ippai_output_path p0 = .ok dd)
    (H2 : acousticLoad store st.settings = .ok props)
    (H3 : pyDictGet props Tags.PROPERTY_SPEED_OF_SOUND = .ok v1)
    (H4 : rot90x3 v1 = .ok r1)
    (H5 : pyDictGet props Tags.PROPERTY_DENSITY = .ok v2)
    (H6 : rot90x3 v2 = .ok r2)
    (H7 : pyDictGet props Tags.PROPERTY_ALPHA_COEFF = .ok v3)
    (H8 : rot90x3 v3 = .ok r3)
    (H9 : pyDictGet props Tags.PROPERTY_SENSOR_MASK = .ok v4)
    (H10 : rot90x3 v4 = .ok r4)
    (H11 : addDirectivity (dictSet (dictSet (dictSet (dictSet dd
        Tags.PROPERTY_SPEED_OF_SOUND r1) Tags.PROPERTY_DENSITY r2)
        Tags.PROPERTY_ALPHA_COEFF r3) Tags.PROPERTY_SENSOR_MASK r4) props = (ddDir, b))
    (HR : engine.raises = false) (HW : engine.writesOutputs = true)
    (H12 : pyDictGet engine.outMat "sensor_data_2D" = .ok sd)
    (H13 : pyDictGet engine.outDt "time_step" = .ok tv)
    (H14 : pyFloat tv = .ok q)
    (D1 : st.settings.ippai_output_path ++ ".mat" ≠ st.settings.ippai_output_path ++ ".mat" ++ ".mat")
    (D2 : st.settings.ippai_output_path ++ ".mat" ≠ st.settings.ippai_output_path ++ ".mat" ++ "dt.mat")
    (D3 : st.settings.ippai_output_path ++ ".mat" ++ ".mat" ≠ st.settings.ippai_output_path ++ ".mat" ++ "dt.mat")
    (D4 : splitextBase st.settings.ippai_output_path ++ ".json" ≠ st.settings.ippai_output_path ++ ".mat")
    (D5 : splitextBase st.settings.ippai_output_path ++ ".json" ≠ st.settings.ippai_output_path ++ ".mat" ++ ".mat")
    (D6 : splitextBase st.settings.ippai_output_path ++ ".json" ≠ st.settings.ippai_output_path ++ ".mat" ++ "dt.mat") :
    errOf (simulate store engine p0 st) = some (.nameError "raw_time_series_data") ∧
    (stateOf (simulate store engine p0 st)).cwd = st.cwd ∧
    (stateOf (simulate store engine p0 st)).settings =
      { st.settings with dt_acoustic_sim := some q } ∧
    (stateOf (simulate store engine p0 st)).log =
      st.log ++ (if b then ["No directivity_angle specified"] else []) ∧
    (stateOf (simulate store engine p0 st)).trace =
      st.trace ++ [Ev.wroteMat (st.settings.ippai_output_path ++ ".mat")] ++
        (match st.settings.settings_json_path with
         | none => [Ev.wroteSettings (splitextBase st.settings.ippai_output_path ++ ".json")]
         | some _ => []) ++
        [Ev.invoked (buildCmd st.settings (splitextBase st.settings.ippai_output_path ++ ".json")
          (st.settings.ippai_output_path ++ ".mat"))] ++
        [Ev.removed (st.settings.ippai_output_path ++ ".mat"),
         Ev.removed (st.settings.ippai_output_path ++ ".mat" ++ ".mat"),
         Ev.removed (st.settings.ippai_output_path ++ ".mat" ++ "dt.mat")] ++
        (match st.settings.settings_json_path with
         | none => [Ev.removed (splitextBase st.settings.ippai_output_path ++ ".json")]
         | some _ => []) ∧
    (∀ pp, fsGet (stateOf (simulate store engine p0 st)).fs pp =
      (match st.settings.settings_json_path with
       | none =>
         if pp = splitextBase st.settings.ippai_output_path ++ ".json" then none
         else if pp = st.settings.ippai_output_path ++ ".mat" ++ "dt.mat" then none
         else if pp = st.settings.ippai_output_path ++ ".mat" ++ ".mat" then none
         else if pp = st.settings.ippai_output_path ++ ".mat" then none
         else fsGet st.fs pp
       | some _ =>
         if pp = st.settings.ippai_output_path ++ ".mat" ++ "dt.mat" then none
         else if pp = st.settings.ippai_output_path ++ ".mat" ++ ".mat" then none
         else if pp = st.settings.ippai_output_path ++ ".mat" then none
         else fsGet st.fs pp)) := by
  rcases hj : st.settings.settings_json_path with _ | pext <;> cases b <;>
    refine ⟨?_, ?_, ?_, ?_, ?_, fun pp => ?_⟩ <;>
    simp only [simulate, H1, H2, H3, H4, H5, H6, H7, H8, H9, H10, H11, HR, HW, hj,
      fsLoadmat, osRemove, fsGet_fsSet, fsGet_fsRemove, H12, H13, H14, errOf, stateOf,
      if_neg D1, if_neg D2, if_neg D3, if_neg D4, if_neg D5, if_neg D6,
      if_neg (Ne.symm D1), if_neg (Ne.symm D2), if_neg (Ne.symm D3),
      if_neg (Ne.symm D4), if_neg (Ne.symm D5), if_neg (Ne.symm D6),
      if_pos rfl, if_true, if_false, Bool.false_eq_true, ite_false, ite_true,
      List.append_assoc, List.cons_append, List.nil_append, List.append_nil,
      List.singleton_append]
  all_goals (split_ifs <;> rfl)

/-- Symbolic execution of a run on which the engine invocation raises:
`simulate` propagates the exception with the working directory still set
to the configured simulation directory and all created artifacts still on
disk. -/
theorem simulate_engine_raise
    (store : HDF5Store) (engine : EngineBehavior) (p0 : String) (st : PyState)
    {dd props : PyDict} {v1 r1 v2 r2 v3 r3 v4 r4 : HVal} {ddDir : PyDict} {b : Bool}
    (H1 : store st.settings.ippai_output_path p0 = .ok dd)
    (H2 : acousticLoad store st.settings = .ok props)
    (H3 : pyDictGet props Tags.PROPERTY_SPEED_OF_SOUND = .ok v1)
    (H4 : rot90x3 v1 = .ok r1)
    (H5 : pyDictGet props Tags.PROPERTY_DENSITY = .ok v2)
    (H6 : rot90x3 v2 = .ok r2)
    (H7 : pyDictGet props Tags.PROPERTY_ALPHA_COEFF = .ok v3)
    (H8 : rot90x3 v3 = .ok r3)
    (H9 : pyDictGet props Tags.PROPERTY_SENSOR_MASK = .ok v4)
    (H10 : rot90x3 v4 = .ok r4)
    (H11 : addDirectivity (dictSet (dictSet (dictSet (dictSet dd
        Tags.PROPERTY_SPEED_OF_SOUND r1) Tags.PROPERTY_DENSITY r2)
        Tags.PROPERTY_ALPHA_COEFF r3) Tags.PROPERTY_SENSOR_MASK r4) props = (ddDir, b))
    (HR : engine.raises = true)
    (D4 : splitextBase st.settings.ippai_output_path ++ ".json" ≠ st.settings.ippai_output_path ++ ".mat") :
    errOf (simulate store engine p0 st) = some PyErr.engineError ∧
    (stateOf (simulate store engine p0 st)).cwd = st.settings.simulation_path ∧
    fsGet (stateOf (simulate store engine p0 st)).fs
      (st.settings.ippai_output_path ++ ".mat") = some (FileData.mat ddDir) := by
  rcases hj : st.settings.settings_json_path with _ | pext <;> cases b <;>
    refine ⟨?_, ?_, ?_⟩ <;>
    simp only [simulate, H1, H2, H3, H4, H5, H6, H7, H8, H9, H10, H11, HR, hj,
      errOf, stateOf, fsGet_fsSet, if_neg (Ne.symm D4),
      if_pos rfl, if_true, if_false, ite_false, ite_true]

/-- Symbolic execution of a run on which a required field is absent from
the acoustic dataset: the read at line 26 raises `KeyError` (and nothing
else), with the state untouched. -/
theorem simulate_missing_required_field
    (store : HDF5Store) (engine : EngineBehavior) (p0 : String) (st : PyState)
    {dd props : PyDict}
    (H1 : store st.settings.ippai_output_path p0 = .ok dd)
    (H2 : acousticLoad store st.settings = .ok props)
    (H3 : dictGet? props Tags.PROPERTY_SPEED_OF_SOUND = none) :
    simulate store engine p0 st =
      Res.exn (PyErr.keyError Tags.PROPERTY_SPEED_OF_SOUND) st := by
  simp only [simulate, H1, H2, pyDictGet, H3]

/-- Claim C4: for every settings object, `simulate`'s acoustic-property
load (lines 15–24) reads the dataset keyed by (`UPSAMPLED_DATA`,
wavelength) exactly when `PERFORM_UPSAMPLING` is present and true, and
the dataset keyed by (`ORIGINAL_DATA`, wavelength) when the key is
present and false or absent entirely. -/
theorem acousticLoad_source_selection (store : HDF5Store) (s : SimulationSettings) :
    acousticLoad store s =
      store s.ippai_output_path
        (SaveFilePaths.simulationProperties
          (match s.perform_upsampling with
           | some true => Tags.UPSAMPLED_DATA
           | some false => Tags.ORIGINAL_DATA
           | none => Tags.ORIGINAL_DATA) s.wavelength) := by
  rcases h : s.perform_upsampling with _ | b
  · simp [acousticLoad, h]
  · cases b <;> simp [acousticLoad, h]

/-- Claim C5: the geometry transform `simulate` applies to each 2D field
before serialization is exactly three successive 90° rotations (a fixed
270° rotation), and applying that transform four times to any 2D array
gives back the original array, element for element (it is a pure index
permutation). -/
theorem rot270_is_three_rotations_and_involution :
    (∀ (m n : Nat) (A : Fin m → Fin n → ℚ),
      rot90x3 (HVal.arr m n A) = .ok (.arr n m (rotCCW (rotCCW (rotCCW A))))) ∧
    (∀ (α : Type) (m n : Nat) (A : Fin m → Fin n → α),
      rot270 (rot270 (rot270 (rot270 A))) = A) := by
  refine ⟨fun m n A => rfl, fun α m n A => ?_⟩
  funext i j
  simp [rot270, rotCCW, Fin.rev_rev]

/-- Claim C1 (code-bug evidence): on the §8 end-to-end example — a store
with the four required 4×4 fields, `PERFORM_UPSAMPLING = false`, a stub
engine producing a zero sensor matrix and timestep 1e-7 — the run stores
the timestep under `dt_acoustic_sim`, leaves zero residual temp files and
restores the working directory, but instead of returning the sensor-data
matrix it raises `NameError` at line 70, because the returned name
`raw_time_series_data` is never defined (the matrix read at line 60 into
`sensor_data` is dropped). -/
theorem simulate_success_path_raises_nameError :
    errOf (simulate exampleStore exampleEngine "optical_forward_model_output/800" exampleState) =
      some (PyErr.nameError "raw_time_series_data") ∧
    (stateOf (simulate exampleStore exampleEngine "optical_forward_model_output/800"
      exampleState)).settings.dt_acoustic_sim = some (1 / 10000000) ∧
    (stateOf (simulate exampleStore exampleEngine "optical_forward_model_output/800"
      exampleState)).fs = [] ∧
    (stateOf (simulate exampleStore exampleEngine "optical_forward_model_output/800"
      exampleState)).cwd = "/home" ∧
    (stateOf (simulate exampleStore exampleEngine "optical_forward_model_output/800"
      exampleState)).log = ["No directivity_angle specified"] :=
  ⟨rfl, rfl, rfl, rfl, rfl⟩

/-- Claim C2 (counterexample): an invocation on which the engine completes
without producing its output artifacts fails at output retrieval, and the
temporary artifacts the bridge created — the data container
`/tmp/out.hdf5.mat` and the settings JSON `/tmp/out.json` — are still on
disk afterwards, contradicting cleanup totality on the error path. -/
theorem simulate_leaves_artifacts_on_engine_failure :
    errOf (simulate exampleStore engineNoOutput "optical_forward_model_output/800" exampleState) =
      some (PyErr.fileNotFoundError "/tmp/out.hdf5.mat.mat") ∧
    (fsGet (stateOf (simulate exampleStore engineNoOutput "optical_forward_model_output/800"
      exampleState)).fs "/tmp/out.hdf5.mat").isSome = true ∧
    (fsGet (stateOf (simulate exampleStore engineNoOutput "optical_forward_model_output/800"
      exampleState)).fs "/tmp/out.json").isSome = true :=
  ⟨rfl, rfl, rfl⟩

/-- Claim C2 (amended): on every invocation that completes output
retrieval, the bridge removes the data container, both engine outputs and
— exactly when it wrote it — the settings JSON; a settings file recorded
under the pre-existing settings-path key is never deleted, and no path
other than the four derived artifact paths is touched.  (On invocations
failing at engine invocation or output retrieval, the artifacts remain:
see the counterexample.) -/
theorem simulate_cleanup_on_success_only
    (store : HDF5Store) (engine : EngineBehavior) (p0 : String) (st : PyState)
    {dd props : PyDict} {v1 r1 v2 r2 v3 r3 v4 r4 : HVal} {ddDir : PyDict} {b : Bool}
    {sd tv : HVal} {q : ℚ}
    (H1 : store st.settings.ippai_output_path p0 = .ok dd)
    (H2 : acousticLoad store st.settings = .ok props)
    (H3 : pyDictGet props Tags.PROPERTY_SPEED_OF_SOUND = .ok v1)
    (H4 : rot90x3 v1 = .ok r1)
    (H5 : pyDictGet props Tags.PROPERTY_DENSITY = .ok v2)
    (H6 : rot90x3 v2 = .ok r2)
    (H7 : pyDictGet props Tags.PROPERTY_ALPHA_COEFF = .ok v3)
    (H8 : rot90x3 v3 = .ok r3)
    (H9 : pyDictGet props Tags.PROPERTY_SENSOR_MASK = .ok v4)
    (H10 : rot90x3 v4 = .ok r4)
    (H11 : addDirectivity (dictSet (dictSet (dictSet (dictSet dd
        Tags.PROPERTY_SPEED_OF_SOUND r1) Tags.PROPERTY_DENSITY r2)
        Tags.PROPERTY_ALPHA_COEFF r3) Tags.PROPERTY_SENSOR_MASK r4) props = (ddDir, b))
    (HR : engine.raises = false) (HW : engine.writesOutputs = true)
    (H12 : pyDictGet engine.outMat "sensor_data_2D" = .ok sd)
    (H13 : pyDictGet engine.outDt "time_step" = .ok tv)
    (H14 : pyFloat tv = .ok q)
    (D1 : st.settings.ippai_output_path ++ ".mat" ≠ st.settings.ippai_output_path ++ ".mat" ++ ".mat")
    (D2 : st.settings.ippai_output_path ++ ".mat" ≠ st.settings.ippai_output_path ++ ".mat" ++ "dt.mat")
    (D3 : st.settings.ippai_output_path ++ ".mat" ++ ".mat" ≠ st.settings.ippai_output_path ++ ".mat" ++ "dt.mat")
    (D4 : splitextBase st.settings.ippai_output_path ++ ".json" ≠ st.settings.ippai_output_path ++ ".mat")
    (D5 : splitextBase st.settings.ippai_output_path ++ ".json" ≠ st.settings.ippai_output_path ++ ".mat" ++ ".mat")
    (D6 : splitextBase st.settings.ippai_output_path ++ ".json" ≠ st.settings.ippai_output_path ++ ".mat" ++ "dt.mat") :
    errOf (simulate store engine p0 st) = some (.nameError "raw_time_series_data") ∧
    fsGet (stateOf (simulate store engine p0 st)).fs
      (st.settings.ippai_output_path ++ ".mat") = none ∧
    fsGet (stateOf (simulate store engine p0 st)).fs
      (st.settings.ippai_output_path ++ ".mat" ++ ".mat") = none ∧
    fsGet (stateOf (simulate store engine p0 st)).fs
      (st.settings.ippai_output_path ++ ".mat" ++ "dt.mat") = none ∧
    (st.settings.settings_json_path = none →
      fsGet (stateOf (simulate store engine p0 st)).fs
        (splitextBase st.settings.ippai_output_path ++ ".json") = none) ∧
    (∀ pext, st.settings.settings_json_path = some pext →
      fsGet (stateOf (simulate store engine p0 st)).fs
        (splitextBase st.settings.ippai_output_path ++ ".json") =
      fsGet st.fs (splitextBase st.settings.ippai_output_path ++ ".json")) ∧
    (∀ pp, pp ≠ st.settings.ippai_output_path ++ ".mat" →
      pp ≠ st.settings.ippai_output_path ++ ".mat" ++ ".mat" →
      pp ≠ st.settings.ippai_output_path ++ ".mat" ++ "dt.mat" →
      pp ≠ splitextBase st.settings.ippai_output_path ++ ".json" →
      fsGet (stateOf (simulate store engine p0 st)).fs pp = fsGet st.fs pp) := by
  obtain ⟨he, hc, hs, hl, ht, hf⟩ := simulate_success store engine p0 st
    H1 H2 H3 H4 H5 H6 H7 H8 H9 H10 H11 HR HW H12 H13 H14 D1 D2 D3 D4 D5 D6
  refine ⟨he, ?_, ?_, ?_, ?_, ?_, ?_⟩
  · rw [hf]
    rcases hk : st.settings.settings_json_path <;> simp [hk]
  · rw [hf]
    rcases hk : st.settings.settings_json_path <;> simp [hk]
  · rw [hf]
    rcases hk : st.settings.settings_json_path <;> simp [hk]
  · intro hk
    rw [hf, hk]
    simp
  · intro pext hk
    rw [hf, hk]
    simp [D4, D5, D6]
  · intro pp h1 h2 h3 h4
    rw [hf]
    rcases hk : st.settings.settings_json_path <;> simp [hk, h1, h2, h3, h4]

/-- Claim C2 (witness): the amended cleanup theorem applied to the
concrete externally-owned-settings scenario: the data container is gone
and the externally owned settings file is untouched. -/
theorem simulate_cleanup_on_success_only_witness :
    fsGet (stateOf (simulate exampleStore exampleEngine "optical_forward_model_output/800"
      exampleStateExt)).fs "/tmp/out.hdf5.mat" = none ∧
    fsGet (stateOf (simulate exampleStore exampleEngine "optical_forward_model_output/800"
      exampleStateExt)).fs "/etc/external_settings.json" = some FileData.other := by
  have h := simulate_cleanup_on_success_only exampleStore exampleEngine
    "optical_forward_model_output/800" exampleStateExt
    rfl rfl rfl rfl rfl rfl rfl rfl rfl rfl rfl rfl rfl rfl rfl rfl
    (by decide) (by decide) (by decide) (by decide) (by decide) (by decide)
  refine ⟨h.2.1, ?_⟩
  have hframe := h.2.2.2.2.2.2 "/etc/external_settings.json"
    (by decide) (by decide) (by decide) (by decide)
  simpa using hframe

/-- Claim C3 (counterexample): when the engine invocation raises, the
exception propagates with the working directory still set to the
configured simulation directory, not the directory captured before
invocation — the restoration at line 68 is skipped because there is no
`try`/`finally`. -/
theorem simulate_cwd_not_restored_on_engine_raise :
    errOf (simulate exampleStore engineRaising "optical_forward_model_output/800" exampleState) =
      some PyErr.engineError ∧
    (stateOf (simulate exampleStore engineRaising "optical_forward_model_output/800"
      exampleState)).cwd = "/simdir" ∧
    exampleState.cwd = "/home" ∧ ("/simdir" : String) ≠ "/home" :=
  ⟨rfl, rfl, rfl, by decide⟩

/-- Claim C3 (amended): the working directory captured at line 55 is
restored exactly on runs that complete output retrieval; when the engine
invocation raises, the invocation terminates with the working directory
still equal to the configured simulation directory. -/
theorem simulate_cwd_restored_only_on_success
    (store : HDF5Store) (engine engineR : EngineBehavior) (p0 : String) (st : PyState)
    {dd props : PyDict} {v1 r1 v2 r2 v3 r3 v4 r4 : HVal} {ddDir : PyDict} {b : Bool}
    {sd tv : HVal} {q : ℚ}
    (H1 : store st.settings.ippai_output_path p0 = .ok dd)
    (H2 : acousticLoad store st.settings = .ok props)
    (H3 : pyDictGet props Tags.PROPERTY_SPEED_OF_SOUND = .ok v1)
    (H4 : rot90x3 v1 = .ok r1)
    (H5 : pyDictGet props Tags.PROPERTY_DENSITY = .ok v2)
    (H6 : rot90x3 v2 = .ok r2)
    (H7 : pyDictGet props Tags.PROPERTY_ALPHA_COEFF = .ok v3)
    (H8 : rot90x3 v3 = .ok r3)
    (H9 : pyDictGet props Tags.PROPERTY_SENSOR_MASK = .ok v4)
    (H10 : rot90x3 v4 = .ok r4)
    (H11 : addDirectivity (dictSet (dictSet (dictSet (dictSet dd
        Tags.PROPERTY_SPEED_OF_SOUND r1) Tags.PROPERTY_DENSITY r2)
        Tags.PROPERTY_ALPHA_COEFF r3) Tags.PROPERTY_SENSOR_MASK r4) props = (ddDir, b))
    (HR : engine.raises = false) (HW : engine.writesOutputs = true)
    (H12 : pyDictGet engine.outMat "sensor_data_2D" = .ok sd)
    (H13 : pyDictGet engine.outDt "time_step" = .ok tv)
    (H14 : pyFloat tv = .ok q)
    (D1 : st.settings.ippai_output_path ++ ".mat" ≠ st.settings.ippai_output_path ++ ".mat" ++ ".mat")
    (D2 : st.settings.ippai_output_path ++ ".mat" ≠ st.settings.ippai_output_path ++ ".mat" ++ "dt.mat")
    (D3 : st.settings.ippai_output_path ++ ".mat" ++ ".mat" ≠ st.settings.ippai_output_path ++ ".mat" ++ "dt.mat")
    (D4 : splitextBase st.settings.ippai_output_path ++ ".json" ≠ st.settings.ippai_output_path ++ ".mat")
    (D5 : splitextBase st.settings.ippai_output_path ++ ".json" ≠ st.settings.ippai_output_path ++ ".mat" ++ ".mat")
    (D6 : splitextBase st.settings.ippai_output_path ++ ".json" ≠ st.settings.ippai_output_path ++ ".mat" ++ "dt.mat")
    (HRr : engineR.raises = true) :
    (stateOf (simulate store engine p0 st)).cwd = st.cwd ∧
    (stateOf (simulate store engineR p0 st)).cwd = st.settings.simulation_path :=
  ⟨(simulate_success store engine p0 st
      H1 H2 H3 H4 H5 H6 H7 H8 H9 H10 H11 HR HW H12 H13 H14 D1 D2 D3 D4 D5 D6).2.1,
    (simulate_engine_raise store engineR p0 st
      H1 H2 H3 H4 H5 H6 H7 H8 H9 H10 H11 HRr D4).2.1⟩

/-- Claim C3 (witness): the amended theorem at the concrete example: the
success run ends back in `/home`, the raising run ends in `/simdir`. -/
theorem simulate_cwd_restored_only_on_success_witness :
    (stateOf (simulate exampleStore exampleEngine "optical_forward_model_output/800"
      exampleState)).cwd = "/home" ∧
    (stateOf (simulate exampleStore engineRaising "optical_forward_model_output/800"
      exampleState)).cwd = "/simdir" := by
  have h := simulate_cwd_restored_only_on_success exampleStore exampleEngine engineRaising
    "optical_forward_model_output/800" exampleState
    rfl rfl rfl rfl rfl rfl rfl rfl rfl rfl rfl rfl rfl rfl rfl rfl
    (by decide) (by decide) (by decide) (by decide) (by decide) (by decide) rfl
  exact h

/-- Claim C6 (counterexample): with the speed of sound absent from the
acoustic dataset, `simulate` aborts with the store's plain `KeyError` —
there is no dedicated `MissingUpstreamDataError` anywhere in the code, so
the abort is not of that class. -/
theorem missing_required_field_raises_plain_keyError :
    simulate exampleStoreNoSos exampleEngine "optical_forward_model_output/800" exampleState =
      Res.exn (PyErr.keyError Tags.PROPERTY_SPEED_OF_SOUND) exampleState ∧
    PyErr.keyError Tags.PROPERTY_SPEED_OF_SOUND ≠
      PyErr.missingUpstreamDataError Tags.PROPERTY_SPEED_OF_SOUND :=
  ⟨simulate_missing_required_field exampleStoreNoSos exampleEngine
      "optical_forward_model_output/800" exampleState rfl rfl rfl,
    fun h => PyErr.noConfusion h⟩

/-- Claim C6 (amended): when the directivity-angle field is absent from
the loaded acoustic data, or present but not a 2D array, the `try` block
of lines 30–35 recovers locally — the bundle is left without the field
and the diagnostic flag fires (which `simulate` logs as
`No directivity_angle specified`) — whereas absence of a required field
(e.g. the speed of sound) aborts the invocation with the store's
`KeyError`, not with a dedicated `MissingUpstreamDataError`. -/
theorem optional_directivity_tolerated_required_keyError :
    (∀ (dd props : PyDict), dictGet? props Tags.PROPERTY_DIRECTIVITY_ANGLE = none →
      addDirectivity dd props = (dd, true)) ∧
    (∀ (dd props : PyDict) (q0 : ℚ),
      dictGet? props Tags.PROPERTY_DIRECTIVITY_ANGLE = some (HVal.scalar q0) →
      addDirectivity dd props = (dd, true)) ∧
    (∀ (store : HDF5Store) (engine : EngineBehavior) (p0 : String) (st : PyState)
      (dd props : PyDict),
      store st.settings.ippai_output_path p0 = .ok dd →
      acousticLoad store st.settings = .ok props →
      dictGet? props Tags.PROPERTY_SPEED_OF_SOUND = none →
      simulate store engine p0 st =
        Res.exn (PyErr.keyError Tags.PROPERTY_SPEED_OF_SOUND) st) := by
  refine ⟨?_, ?_, ?_⟩
  · intro dd props h
    simp [addDirectivity, pyDictGet, h]
  · intro dd props q0 h
    simp [addDirectivity, pyDictGet, h, rot90x3]
  · intro store engine p0 st dd props h1 h2 h3
    exact simulate_missing_required_field store engine p0 st h1 h2 h3

/-- Claim C6 (witness): the amended theorem at concrete inputs: fields
without directivity give an unchanged bundle and the diagnostic flag, a
scalar (sub-2D) directivity does the same, and the store missing the
speed of sound makes the concrete run abort with `KeyError`. -/
theorem optional_directivity_tolerated_required_keyError_witness :
    dictGet? exampleProps Tags.PROPERTY_DIRECTIVITY_ANGLE = none ∧
    addDirectivity [] exampleProps = ([], true) ∧
    addDirectivity [] [(Tags.PROPERTY_DIRECTIVITY_ANGLE, HVal.scalar 3)] = ([], true) ∧
    simulate exampleStoreNoSos exampleEngine "optical_forward_model_output/800" exampleState =
      Res.exn (PyErr.keyError Tags.PROPERTY_SPEED_OF_SOUND) exampleState := by
  have h := optional_directivity_tolerated_required_keyError
  exact ⟨rfl, h.1 [] exampleProps rfl,
    h.2.1 [] [(Tags.PROPERTY_DIRECTIVITY_ANGLE, HVal.scalar 3)] 3 rfl,
    h.2.2 exampleStoreNoSos exampleEngine "optical_forward_model_output/800" exampleState
      [] examplePropsNoSos rfl rfl rfl⟩

/-- Claim C7: on a completed invocation, the settings JSON at
`<base>.json` is written exactly when the settings object does not
already carry the settings-file-path key; when that key is present, the
run writes no settings file at all and its deletions touch only the
three data artifacts, never a settings file. -/
theorem settings_json_written_iff_not_preexisting
    (store : HDF5Store) (engine : EngineBehavior) (p0 : String) (st : PyState)
    {dd props : PyDict} {v1 r1 v2 r2 v3 r3 v4 r4 : HVal} {ddDir : PyDict} {b : Bool}
    {sd tv : HVal} {q : ℚ}
    (H1 : store st.settings.ippai_output_path p0 = .ok dd)
    (H2 : acousticLoad store st.settings = .ok props)
    (H3 : pyDictGet props Tags.PROPERTY_SPEED_OF_SOUND = .ok v1)
    (H4 : rot90x3 v1 = .ok r1)
    (H5 : pyDictGet props Tags.PROPERTY_DENSITY = .ok v2)
    (H6 : rot90x3 v2 = .ok r2)
    (H7 : pyDictGet props Tags.PROPERTY_ALPHA_COEFF = .ok v3)
    (H8 : rot90x3 v3 = .ok r3)
    (H9 : pyDictGet props Tags.PROPERTY_SENSOR_MASK = .ok v4)
    (H10 : rot90x3 v4 = .ok r4)
    (H11 : addDirectivity (dictSet (dictSet (dictSet (dictSet dd
        Tags.PROPERTY_SPEED_OF_SOUND r1) Tags.PROPERTY_DENSITY r2)
        Tags.PROPERTY_ALPHA_COEFF r3) Tags.PROPERTY_SENSOR_MASK r4) props = (ddDir, b))
    (HR : engine.raises = false) (HW : engine.writesOutputs = true)
    (H12 : pyDictGet engine.outMat "sensor_data_2D" = .ok sd)
    (H13 : pyDictGet engine.outDt "time_step" = .ok tv)
    (H14 : pyFloat tv = .ok q)
    (D1 : st.settings.ippai_output_path ++ ".mat" ≠ st.settings.ippai_output_path ++ ".mat" ++ ".mat")
    (D2 : st.settings.ippai_output_path ++ ".mat" ≠ st.settings.ippai_output_path ++ ".mat" ++ "dt.mat")
    (D3 : st.settings.ippai_output_path ++ ".mat" ++ ".mat" ≠ st.settings.ippai_output_path ++ ".mat" ++ "dt.mat")
    (D4 : splitextBase st.settings.ippai_output_path ++ ".json" ≠ st.settings.ippai_output_path ++ ".mat")
    (D5 : splitextBase st.settings.ippai_output_path ++ ".json" ≠ st.settings.ippai_output_path ++ ".mat" ++ ".mat")
    (D6 : splitextBase st.settings.ippai_output_path ++ ".json" ≠ st.settings.ippai_output_path ++ ".mat" ++ "dt.mat")
    (Htr : st.trace = []) :
    (st.settings.settings_json_path = none →
      Ev.wroteSettings (splitextBase st.settings.ippai_output_path ++ ".json") ∈
        (stateOf (simulate store engine p0 st)).trace) ∧
    (∀ pext, st.settings.settings_json_path = some pext →
      (∀ pp, Ev.wroteSettings pp ∉ (stateOf (simulate store engine p0 st)).trace) ∧
      (∀ pp, Ev.removed pp ∈ (stateOf (simulate store engine p0 st)).trace →
        pp = st.settings.ippai_output_path ++ ".mat" ∨
        pp = st.settings.ippai_output_path ++ ".mat" ++ ".mat" ∨
        pp = st.settings.ippai_output_path ++ ".mat" ++ "dt.mat")) := by
  obtain ⟨he, hc, hs, hl, ht, hf⟩ := simulate_success store engine p0 st
    H1 H2 H3 H4 H5 H6 H7 H8 H9 H10 H11 HR HW H12 H13 H14 D1 D2 D3 D4 D5 D6
  rw [ht, Htr]
  constructor
  · intro hk
    simp [hk]
  · intro pext hk
    constructor
    · intro pp hmem
      simp [hk] at hmem
    · intro pp hmem
      simp [hk] at hmem
      tauto

/-- Claim C7 (witness): the theorem at the two concrete runs: the run
without a pre-existing settings path records the write of
`/tmp/out.json`; the run with one records no settings write and removes
only the three data artifacts. -/
theorem settings_json_written_iff_not_preexisting_witness :
    Ev.wroteSettings "/tmp/out.json" ∈
      (stateOf (simulate exampleStore exampleEngine "optical_forward_model_output/800"
        exampleState)).trace ∧
    (Ev.wroteSettings "/tmp/out.json" ∉
      (stateOf (simulate exampleStore exampleEngine "optical_forward_model_output/800"
        exampleStateExt)).trace) ∧
    (Ev.removed "/etc/external_settings.json" ∉
      (stateOf (simulate exampleStore exampleEngine "optical_forward_model_output/800"
        exampleStateExt)).trace) := by
  have h1 := settings_json_written_iff_not_preexisting exampleStore exampleEngine
    "optical_forward_model_output/800" exampleState
    rfl rfl rfl rfl rfl rfl rfl rfl rfl rfl rfl rfl rfl rfl rfl rfl
    (by decide) (by decide) (by decide) (by decide) (by decide) (by decide) rfl
  have h2 := settings_json_written_iff_not_preexisting exampleStore exampleEngine
    "optical_forward_model_output/800" exampleStateExt
    rfl rfl rfl rfl rfl rfl rfl rfl rfl rfl rfl rfl rfl rfl rfl rfl
    (by decide) (by decide) (by decide) (by decide) (by decide) (by decide) rfl
  refine ⟨h1.1 rfl, (h2.2 "/etc/external_settings.json" rfl).1 "/tmp/out.json", ?_⟩
  intro hmem
  have h3 := (h2.2 "/etc/external_settings.json" rfl).2 "/etc/external_settings.json" hmem
  revert h3
  decide

/-- Claim C8 (counterexample): on the concrete completed run, the single
engine invocation uses `buildCmd`, whose script argument has no space
after either semicolon — it differs from the §6 command line of the
specification, which puts a space after `addpath('<dir>');` and before
`exit;`.  The token order and the flag tokens agree; only the script
string differs. -/
theorem engine_cmd_differs_from_spec_quoting :
    (stateOf (simulate exampleStore exampleEngine "optical_forward_model_output/800"
      exampleState)).trace.filter
        (fun e => match e with | Ev.invoked _ => true | _ => false) =
      [Ev.invoked (buildCmd exampleSettings "/tmp/out.json" "/tmp/out.hdf5.mat")] ∧
    buildCmd exampleSettings "/tmp/out.json" "/tmp/out.hdf5.mat" ≠
      specCmd exampleSettings "/tmp/out.json" "/tmp/out.hdf5.mat" ∧
    buildCmd exampleSettings "/tmp/out.json" "/tmp/out.hdf5.mat" =
      ["matlab", "-nodisplay", "-nosplash", "-r",
        "addpath('/scripts');simulate_2D('/tmp/out.json', '/tmp/out.hdf5.mat');exit;"] :=
  ⟨rfl, by decide, rfl⟩

/-- Claim C8 (amended): on every completed invocation the engine command
line consists, in this exact order, of the engine binary path, the flags
`-nodisplay` and `-nosplash`, the flag `-r`, and the single script
argument `addpath('<script_dir>');<entry_script>('<settings_json_path>',
'<data_container_path>');exit;` — as in the claim but with no space after
either semicolon (there is a space only after the comma between the two
paths). -/
theorem engine_cmd_exact_form
    (store : HDF5Store) (engine : EngineBehavior) (p0 : String) (st : PyState)
    {dd props : PyDict} {v1 r1 v2 r2 v3 r3 v4 r4 : HVal} {ddDir : PyDict} {b : Bool}
    {sd tv : HVal} {q : ℚ}
    (H1 : store st.settings.ippai_output_path p0 = .ok dd)
    (H2 : acousticLoad store st.settings = .ok props)
    (H3 : pyDictGet props Tags.PROPERTY_SPEED_OF_SOUND = .ok v1)
    (H4 : rot90x3 v1 = .ok r1)
    (H5 : pyDictGet props Tags.PROPERTY_DENSITY = .ok v2)
    (H6 : rot90x3 v2 = .ok r2)
    (H7 : pyDictGet props Tags.PROPERTY_ALPHA_COEFF = .ok v3)
    (H8 : rot90x3 v3 = .ok r3)
    (H9 : pyDictGet props Tags.PROPERTY_SENSOR_MASK = .ok v4)
    (H10 : rot90x3 v4 = .ok r4)
    (H11 : addDirectivity (dictSet (dictSet (dictSet (dictSet dd
        Tags.PROPERTY_SPEED_OF_SOUND r1) Tags.PROPERTY_DENSITY r2)
        Tags.PROPERTY_ALPHA_COEFF r3) Tags.PROPERTY_SENSOR_MASK r4) props = (ddDir, b))
    (HR : engine.raises = false) (HW : engine.writesOutputs = true)
    (H12 : pyDictGet engine.outMat "sensor_data_2D" = .ok sd)
    (H13 : pyDictGet engine.outDt "time_step" = .ok tv)
    (H14 : pyFloat tv = .ok q)
    (D1 : st.settings.ippai_output_path ++ ".mat" ≠ st.settings.ippai_output_path ++ ".mat" ++ ".mat")
    (D2 : st.settings.ippai_output_path ++ ".mat" ≠ st.settings.ippai_output_path ++ ".mat" ++ "dt.mat")
    (D3 : st.settings.ippai_output_path ++ ".mat" ++ ".mat" ≠ st.settings.ippai_output_path ++ ".mat" ++ "dt.mat")
    (D4 : splitextBase st.settings.ippai_output_path ++ ".json" ≠ st.settings.ippai_output_path ++ ".mat")
    (D5 : splitextBase st.settings.ippai_output_path ++ ".json" ≠ st.settings.ippai_output_path ++ ".mat" ++ ".mat")
    (D6 : splitextBase st.settings.ippai_output_path ++ ".json" ≠ st.settings.ippai_output_path ++ ".mat" ++ "dt.mat") :
    Ev.invoked [st.settings.acoustic_model_binary_path, "-nodisplay", "-nosplash", "-r",
        "addpath('" ++ st.settings.acoustic_model_script_location ++ "');" ++
          st.settings.acoustic_model_script ++ "('" ++
          (splitextBase st.settings.ippai_output_path ++ ".json") ++
          "', '" ++ (st.settings.ippai_output_path ++ ".mat") ++ "');exit;"] ∈
      (stateOf (simulate store engine p0 st)).trace := by
  obtain ⟨he, hc, hs, hl, ht, hf⟩ := simulate_success store engine p0 st
    H1 H2 H3 H4 H5 H6 H7 H8 H9 H10 H11 HR HW H12 H13 H14 D1 D2 D3 D4 D5 D6
  rw [ht]
  rcases st.settings.settings_json_path <;> simp [buildCmd]

/-- Claim C8 (witness): the amended command-line theorem applied to the
concrete completed run. -/
theorem engine_cmd_exact_form_witness :
    Ev.invoked ["matlab", "-nodisplay", "-nosplash", "-r",
        "addpath('/scripts');simulate_2D('/tmp/out.json', '/tmp/out.hdf5.mat');exit;"] ∈
      (stateOf (simulate exampleStore exampleEngine "optical_forward_model_output/800"
        exampleState)).trace := by
  have h := engine_cmd_exact_form exampleStore exampleEngine
    "optical_forward_model_output/800" exampleState
    rfl rfl rfl rfl rfl rfl rfl rfl rfl rfl rfl rfl rfl rfl rfl rfl
    (by decide) (by decide) (by decide) (by decide) (by decide) (by decide)
  simpa using h

/-- Claim C9: even when the settings object already carries the
pre-existing settings-file-path key, the settings-file argument the
bridge passes to the engine is still the path derived from the primary
output path (`<base>.json`) — a file this invocation never wrote (no
settings-write event occurs) — and not the value stored under that
key. -/
theorem engine_cmd_uses_derived_json_path_even_when_preexisting
    (store : HDF5Store) (engine : EngineBehavior) (p0 : String) (st : PyState)
    {dd props : PyDict} {v1 r1 v2 r2 v3 r3 v4 r4 : HVal} {ddDir : PyDict} {b : Bool}
    {sd tv : HVal} {q : ℚ} (pext : String)
    (H1 : store st.settings.ippai_output_path p0 = .ok dd)
    (H2 : acousticLoad store st.settings = .ok props)
    (H3 : pyDictGet props Tags.PROPERTY_SPEED_OF_SOUND = .ok v1)
    (H4 : rot90x3 v1 = .ok r1)
    (H5 : pyDictGet props Tags.PROPERTY_DENSITY = .ok v2)
    (H6 : rot90x3 v2 = .ok r2)
    (H7 : pyDictGet props Tags.PROPERTY_ALPHA_COEFF = .ok v3)
    (H8 : rot90x3 v3 = .ok r3)
    (H9 : pyDictGet props Tags.PROPERTY_SENSOR_MASK = .ok v4)
    (H10 : rot90x3 v4 = .ok r4)
    (H11 : addDirectivity (dictSet (dictSet (dictSet (dictSet dd
        Tags.PROPERTY_SPEED_OF_SOUND r1) Tags.PROPERTY_DENSITY r2)
        Tags.PROPERTY_ALPHA_COEFF r3) Tags.PROPERTY_SENSOR_MASK r4) props = (ddDir, b))
    (HR : engine.raises = false) (HW : engine.writesOutputs = true)
    (H12 : pyDictGet engine.outMat "sensor_data_2D" = .ok sd)
    (H13 : pyDictGet engine.outDt "time_step" = .ok tv)
    (H14 : pyFloat tv = .ok q)
    (D1 : st.settings.ippai_output_path ++ ".mat" ≠ st.settings.ippai_output_path ++ ".mat" ++ ".mat")
    (D2 : st.settings.ippai_output_path ++ ".mat" ≠ st.settings.ippai_output_path ++ ".mat" ++ "dt.mat")
    (D3 : st.settings.ippai_output_path ++ ".mat" ++ ".mat" ≠ st.settings.ippai_output_path ++ ".mat" ++ "dt.mat")
    (D4 : splitextBase st.settings.ippai_output_path ++ ".json" ≠ st.settings.ippai_output_path ++ ".mat")
    (D5 : splitextBase st.settings.ippai_output_path ++ ".json" ≠ st.settings.ippai_output_path ++ ".mat" ++ ".mat")
    (D6 : splitextBase st.settings.ippai_output_path ++ ".json" ≠ st.settings.ippai_output_path ++ ".mat" ++ "dt.mat")
    (Htr : st.trace = []) (HJ : st.settings.settings_json_path = some pext) :
    Ev.invoked (buildCmd st.settings
        (splitextBase st.settings.ippai_output_path ++ ".json")
        (st.settings.ippai_output_path ++ ".mat")) ∈
      (stateOf (simulate store engine p0 st)).trace ∧
    (∀ pp, Ev.wroteSettings pp ∉ (stateOf (simulate store engine p0 st)).trace) := by
  obtain ⟨he, hc, hs, hl, ht, hf⟩ := simulate_success store engine p0 st
    H1 H2 H3 H4 H5 H6 H7 H8 H9 H10 H11 HR HW H12 H13 H14 D1 D2 D3 D4 D5 D6
  rw [ht, Htr, HJ]
  constructor
  · simp
  · intro pp hmem
    simp at hmem

/-- Claim C9 (witness): the theorem at the concrete run whose settings
carry `/etc/external_settings.json`: the command line still names
`/tmp/out.json`, which was never written. -/
theorem engine_cmd_uses_derived_json_path_even_when_preexisting_witness :
    Ev.invoked ["matlab", "-nodisplay", "-nosplash", "-r",
        "addpath('/scripts');simulate_2D('/tmp/out.json', '/tmp/out.hdf5.mat');exit;"] ∈
      (stateOf (simulate exampleStore exampleEngine "optical_forward_model_output/800"
        exampleStateExt)).trace ∧
    Ev.wroteSettings "/tmp/out.json" ∉
      (stateOf (simulate exampleStore exampleEngine "optical_forward_model_output/800"
        exampleStateExt)).trace := by
  have h := engine_cmd_uses_derived_json_path_even_when_preexisting exampleStore exampleEngine
    "optical_forward_model_output/800" exampleStateExt "/etc/external_settings.json"
    rfl rfl rfl rfl rfl rfl rfl rfl rfl rfl rfl rfl rfl rfl rfl rfl
    (by decide) (by decide) (by decide) (by decide) (by decide) (by decide) rfl rfl
  exact ⟨by simpa [buildCmd] using h.1, h.2 "/tmp/out.json"⟩

theorem hbStep_fst (acc : Option ℚ × Option ℚ) (m : Molecule) :
    (hbStep acc m).1 =
      if m.spectrum.spectrum_name = "Deoxyhemoglobin"
      then some m.volume_fraction else acc.1 := by
  by_cases h1 : m.spectrum.spectrum_name = "Deoxyhemoglobin" <;>
    by_cases h2 : m.spectrum.spectrum_name = "Oxyhemoglobin" <;>
    simp [hbStep, h1, h2]

theorem hbStep_snd (acc : Option ℚ × Option ℚ) (m : Molecule) :
    (hbStep acc m).2 =
      if m.spectrum.spectrum_name = "Oxyhemoglobin"
      then some m.volume_fraction else acc.2 := by
  by_cases h1 : m.spectrum.spectrum_name = "Deoxyhemoglobin" <;>
    by_cases h2 : m.spectrum.spectrum_name = "Oxyhemoglobin" <;>
    simp [hbStep, h1, h2]

theorem foldl_hbStep_fst_none (ml : List Molecule) (acc : Option ℚ × Option ℚ) :
    (List.foldl hbStep acc ml).1 = none ↔
      acc.1 = none ∧ ∀ m ∈ ml, m.spectrum.spectrum_name ≠ "Deoxyhemoglobin" := by
  induction ml generalizing acc with
  | nil => simp
  | cons m t ih =>
    rw [List.foldl_cons, ih]
    by_cases hd : m.spectrum.spectrum_name = "Deoxyhemoglobin" <;>
      simp [hbStep_fst, hd]

theorem foldl_hbStep_snd_none (ml : List Molecule) (acc : Option ℚ × Option ℚ) :
    (List.foldl hbStep acc ml).2 = none ↔
      acc.2 = none ∧ ∀ m ∈ ml, m.spectrum.spectrum_name ≠ "Oxyhemoglobin" := by
  induction ml generalizing acc with
  | nil => simp
  | cons m t ih =>
    rw [List.foldl_cons, ih]
    by_cases hd : m.spectrum.spectrum_name = "Oxyhemoglobin" <;>
      simp [hbStep_snd, hd]

theorem foldl_hbStep_fst_some (ml : List Molecule) (acc : Option ℚ × Option ℚ) (v : ℚ)
    (h : (List.foldl hbStep acc ml).1 = some v) :
    acc.1 = some v ∨ ∃ m ∈ ml, v = m.volume_fraction := by
  induction ml generalizing acc with
  | nil => simp_all
  | cons m t ih =>
    rw [List.foldl_cons] at h
    rcases ih _ h with h' | ⟨m', hm', hv⟩
    · rw [hbStep_fst] at h'
      by_cases hd : m.spectrum.spectrum_name = "Deoxyhemoglobin"
      · rw [if_pos hd] at h'
        exact Or.inr ⟨m, List.mem_cons_self m t, (Option.some.injEq _ _ ▸ h').symm⟩
      · rw [if_neg hd] at h'
        exact Or.inl h'
    · exact Or.inr ⟨m', List.mem_cons_of_mem m hm', hv⟩

theorem foldl_hbStep_snd_some (ml : List Molecule) (acc : Option ℚ × Option ℚ) (v : ℚ)
    (h : (List.foldl hbStep acc ml).2 = some v) :
    acc.2 = some v ∨ ∃ m ∈ ml, v = m.volume_fraction := by
  induction ml generalizing acc with
  | nil => simp_all
  | cons m t ih =>
    rw [List.foldl_cons] at h
    rcases ih _ h with h' | ⟨m', hm', hv⟩
    · rw [hbStep_snd] at h'
      by_cases hd : m.spectrum.spectrum_name = "Oxyhemoglobin"
      · rw [if_pos hd] at h'
        exact Or.inr ⟨m, List.mem_cons_self m t, (Option.some.injEq _ _ ▸ h').symm⟩
      · rw [if_neg hd] at h'
        exact Or.inl h'
    · exact Or.inr ⟨m', List.mem_cons_of_mem m hm', hv⟩

theorem hbPair_fst_nonneg (ml : List Molecule)
    (h : ∀ m ∈ ml, 0 ≤ m.volume_fraction) : 0 ≤ (hbPair ml).1.getD 0 := by
  rcases hv : (hbPair ml).1 with _ | v
  · simp
  · rcases foldl_hbStep_fst_some ml (none, none) v hv with h' | ⟨m, hm, rfl⟩
    · simp at h'
    · simpa using h m hm

theorem hbPair_snd_nonneg (ml : List Molecule)
    (h : ∀ m ∈ ml, 0 ≤ m.volume_fraction) : 0 ≤ (hbPair ml).2.getD 0 := by
  rcases hv : (hbPair ml).2 with _ | v
  · simp
  · rcases foldl_hbStep_snd_some ml (none, none) v hv with h' | ⟨m, hm, rfl⟩
    · simp at h'
    · simpa using h m hm

theorem calculate_oxygenation_of_none_none (ml : List Molecule)
    (h : hbPair ml = (none, none)) : calculate_oxygenation ml = none := by
  simp [calculate_oxygenation, h]

theorem calculate_oxygenation_of_seen (ml : List Molecule)
    (h : hbPair ml ≠ (none, none)) :
    calculate_oxygenation ml =
      (if (hbPair ml).1.getD 0 + (hbPair ml).2.getD 0 < 1 / 10 ^ 10 then none
       else some ((hbPair ml).2.getD 0 /
         ((hbPair ml).1.getD 0 + (hbPair ml).2.getD 0))) := by
  rcases hp : hbPair ml with ⟨o1, o2⟩
  rcases o1 with _ | v1 <;> rcases o2 with _ | v2 <;>
    simp_all [calculate_oxygenation]

/-- Claim C10: for molecule lists with non-negative volume fractions,
`calculate_oxygenation` either returns `None` or the value
`hbO2 / (hb + hbO2)`, which lies in `[0, 1]`; the division only happens
when `hb + hbO2 ≥ 1e-10` (so the denominator is never zero), and `None`
is returned exactly when no hemoglobin molecule occurs in the list or the
summed fraction is below `1e-10`. -/
theorem calculate_oxygenation_bounds (molecule_list : List Molecule)
    (h : ∀ m ∈ molecule_list, 0 ≤ m.volume_fraction) :
    (∀ q, calculate_oxygenation molecule_list = some q →
      q = (hbPair molecule_list).2.getD 0 /
          ((hbPair molecule_list).1.getD 0 + (hbPair molecule_list).2.getD 0) ∧
      1 / 10 ^ 10 ≤ (hbPair molecule_list).1.getD 0 + (hbPair molecule_list).2.getD 0 ∧
      0 ≤ q ∧ q ≤ 1) ∧
    (calculate_oxygenation molecule_list = none ↔
      ((∀ m ∈ molecule_list, m.spectrum.spectrum_name ≠ "Deoxyhemoglobin" ∧
          m.spectrum.spectrum_name ≠ "Oxyhemoglobin") ∨
        (hbPair molecule_list).1.getD 0 + (hbPair molecule_list).2.getD 0 < 1 / 10 ^ 10)) := by
  have hb0 := hbPair_fst_nonneg molecule_list h
  have hb2 := hbPair_snd_nonneg molecule_list h
  have hfn : (hbPair molecule_list).1 = none ↔
      ∀ m ∈ molecule_list, m.spectrum.spectrum_name ≠ "Deoxyhemoglobin" := by
    simpa [hbPair] using foldl_hbStep_fst_none molecule_list (none, none)
  have hsn : (hbPair molecule_list).2 = none ↔
      ∀ m ∈ molecule_list, m.spectrum.spectrum_name ≠ "Oxyhemoglobin" := by
    simpa [hbPair] using foldl_hbStep_snd_none molecule_list (none, none)
  constructor
  · intro q hq
    by_cases hnn : hbPair molecule_list = (none, none)
    · rw [calculate_oxygenation_of_none_none molecule_list hnn] at hq
      cases hq
    · rw [calculate_oxygenation_of_seen molecule_list hnn] at hq
      split_ifs at hq with hlt
      cases hq
      have hle : (1 : ℚ) / 10 ^ 10 ≤
          (hbPair molecule_list).1.getD 0 + (hbPair molecule_list).2.getD 0 :=
        not_lt.mp hlt
      have hpos : (0 : ℚ) <
          (hbPair molecule_list).1.getD 0 + (hbPair molecule_list).2.getD 0 :=
        lt_of_lt_of_le (by norm_num) hle
      refine ⟨rfl, hle, div_nonneg hb2 (le_of_lt hpos), ?_⟩
      rw [div_le_one hpos]
      exact le_add_of_nonneg_left hb0
  · by_cases hnn : hbPair molecule_list = (none, none)
    · rw [calculate_oxygenation_of_none_none molecule_list hnn]
      have h1 : (hbPair molecule_list).1 = none := by rw [hnn]
      have h2 : (hbPair molecule_list).2 = none := by rw [hnn]
      simp only [true_iff]
      exact Or.inl fun m hm => ⟨hfn.mp h1 m hm, hsn.mp h2 m hm⟩
    · rw [calculate_oxygenation_of_seen molecule_list hnn]
      split_ifs with hlt
      · simp only [true_iff]
        exact Or.inr hlt
      · simp only [reduceCtorEq, false_iff]
        rintro (hall | hlt')
        · exact hnn (Prod.ext (hfn.mpr fun m hm => (hall m hm).1)
            (hsn.mpr fun m hm => (hall m hm).2))
        · exact hlt hlt'

/-- Claim C10 (witness): the theorem at a concrete two-molecule list:
hb = 1/4, hbO2 = 1/2 give oxygenation 2/3, inside the bounds. -/
theorem calculate_oxygenation_bounds_witness :
    (∀ m ∈ [Molecule.mk (Spectrum.mk "Oxyhemoglobin") (1 / 2),
            Molecule.mk (Spectrum.mk "Deoxyhemoglobin") (1 / 4)],
        0 ≤ m.volume_fraction) ∧
    calculate_oxygenation [Molecule.mk (Spectrum.mk "Oxyhemoglobin") (1 / 2),
            Molecule.mk (Spectrum.mk "Deoxyhemoglobin") (1 / 4)] = some (2 / 3) ∧
    (0 : ℚ) ≤ 2 / 3 ∧ (2 : ℚ) / 3 ≤ 1 := by
  have hc : calculate_oxygenation [Molecule.mk (Spectrum.mk "Oxyhemoglobin") (1 / 2),
      Molecule.mk (Spectrum.mk "Deoxyhemoglobin") (1 / 4)] = some (2 / 3) := by
    have h1 : "Deoxyhemoglobin" ≠ "Oxyhemoglobin" := by decide
    have h2 : "Oxyhemoglobin" ≠ "Deoxyhemoglobin" := by decide
    norm_num [calculate_oxygenation, hbPair, hbStep, if_neg h1, if_neg h2]
  have hb := calculate_oxygenation_bounds
    [Molecule.mk (Spectrum.mk "Oxyhemoglobin") (1 / 2),
     Molecule.mk (Spectrum.mk "Deoxyhemoglobin") (1 / 4)] (by norm_num [List.forall_mem_cons])
  exact ⟨by norm_num [List.forall_mem_cons], hc, (hb.1 (2 / 3) hc).2.2.1, (hb.1 (2 / 3) hc).2.2.2⟩
